import Mathlib

/-!
Verification development for the jersey order backend (`src/server.js`).

The source file contains two concatenated revisions of the same Express
server, separated by a document marker at line 810:

* variant A (lines 1-810): `POST /api/orders` with an inline falsy
  required-field check, email regex, jersey range 0-500, a commented-out
  duplicate pre-check, a table without a unique constraint on
  `jersey_number`, and `await sendEmail(...)` before the 201 response;
  plus `PATCH /api/admin/orders/:id/status`, `DELETE /api/admin/orders/:id`
  and `GET /api/admin/orders/:id`.
* variant B (lines 810-1632): `POST /api/orders` with a `missingFields`
  filter, jersey range 1-99, an active duplicate pre-check, a
  `jersey_number INTEGER NOT NULL UNIQUE` column whose violation is mapped
  from error code 23505 to HTTP 409, and a `Promise.allSettled` email
  dispatch that is not awaited before the 201 response.

The embedding below models JavaScript request values, both handlers, the
persisted order store as a list of rows, and the side effects (email sends
and the HTTP respond step) as an event trace.
-/

namespace Jersee

/-! ## JavaScript value model -/

/-- A JSON / JavaScript value as it can appear in a request body field.
Numbers are modelled as integers; the claims only exercise integral
values. -/
inductive JsValue where
  | vStr : String → JsValue
  | vNum : Int → JsValue
  | vNull : JsValue
  | undef : JsValue
deriving DecidableEq, Repr

/-- JavaScript truthiness: the empty string, the number 0, null and
undefined are falsy; every other modelled value is truthy. -/
def truthy : JsValue → Bool
  | JsValue.vStr s => !(s == "")
  | JsValue.vNum n => !(n == 0)
  | JsValue.vNull => false
  | JsValue.undef => false

/-- JavaScript string conversion (`toString` / template interpolation). -/
def jsToString : JsValue → String
  | JsValue.vStr s => s
  | JsValue.vNum n => toString n
  | JsValue.vNull => "null"
  | JsValue.undef => "undefined"

/-- Drop leading whitespace characters. -/
def dropLeadingWs : List Char → List Char
  | [] => []
  | c :: cs => if c.isWhitespace then dropLeadingWs cs else c :: cs

/-- Whitespace trim on a character list, as JavaScript `trim`. -/
def trimChars (l : List Char) : List Char :=
  ((dropLeadingWs ((dropLeadingWs l).reverse)).reverse)

/-- Whitespace trim, as JavaScript `x.trim()` on a string. -/
def jsTrimStr (s : String) : String :=
  String.mk (trimChars s.toList)

/-- The longest digit prefix of a character list. -/
def leadingDigits : List Char → List Char
  | [] => []
  | c :: cs => if c.isDigit then c :: leadingDigits cs else []

/-- Numeric value of a digit list. -/
def digitsVal (l : List Char) : Nat :=
  l.foldl (fun a c => a * 10 + (c.toNat - 48)) 0

/-- `parseInt` on a character list: an optional sign followed by at least
one leading digit; anything after the digit prefix is ignored.  `none`
models NaN. -/
def parseIntChars (l : List Char) : Option Int :=
  match l with
  | '-' :: cs =>
      let ds := leadingDigits cs
      if ds.isEmpty then none else some (-(digitsVal ds : Int))
  | '+' :: cs =>
      let ds := leadingDigits cs
      if ds.isEmpty then none else some ((digitsVal ds : Int))
  | cs =>
      let ds := leadingDigits cs
      if ds.isEmpty then none else some ((digitsVal ds : Int))

/-- JavaScript `parseInt` applied to a request value: numbers pass through,
strings are parsed after discarding surrounding whitespace, null and
undefined give NaN (`none`). -/
def parseIntJS : JsValue → Option Int
  | JsValue.vNum n => some n
  | JsValue.vStr s => parseIntChars (trimChars s.toList)
  | _ => none

/-- PostgreSQL cast of a parameter into an `INTEGER` column or comparison:
numbers pass through, strings must (after trimming) be a signed digit
string, everything else raises a query error (`none`). -/
def pgIntChars (l : List Char) : Option Int :=
  match l with
  | '-' :: cs =>
      if !cs.isEmpty && cs.all (fun c => c.isDigit) then some (-(digitsVal cs : Int)) else none
  | '+' :: cs =>
      if !cs.isEmpty && cs.all (fun c => c.isDigit) then some ((digitsVal cs : Int)) else none
  | cs =>
      if !cs.isEmpty && cs.all (fun c => c.isDigit) then some ((digitsVal cs : Int)) else none

/-- PostgreSQL integer cast of a request value. -/
def pgInt : JsValue → Option Int
  | JsValue.vNum n => some n
  | JsValue.vStr s => pgIntChars (trimChars s.toList)
  | _ => none

/-- A character allowed by the `[^\s@]` classes of the email regex:
neither whitespace nor an at sign. -/
def emailChar (c : Char) : Bool := !c.isWhitespace && !(c == '@')

/-- Whether a character list contains a dot that is not its last element. -/
def dotNotLast : List Char → Bool
  | [] => false
  | [_] => false
  | c :: rest => c == '.' || dotNotLast rest

/-- Whether a character list contains a dot that is neither its first nor
its last element. -/
def hasInnerDot : List Char → Bool
  | [] => false
  | _ :: rest => dotNotLast rest

/-- Split at the first occurrence of a character: the pieces before and
after it, or `none` when the character does not occur. -/
def breakAtChar (c : Char) : List Char → Option (List Char × List Char)
  | [] => none
  | x :: xs =>
      if x == c then some ([], xs)
      else
        match breakAtChar c xs with
        | none => none
        | some (a, b) => some (x :: a, b)

/-- The test of the anchored regex used by both handlers,
`[^\s@]+ @ [^\s@]+ \. [^\s@]+`: exactly one at sign, a nonempty local
part made of allowed characters, and after the at sign only allowed
characters including a dot with at least one character on each side (the
two classes around the dot may themselves contain dots). -/
def emailValid (s : String) : Bool :=
  match breakAtChar '@' s.toList with
  | none => false
  | some (a, b) =>
      !a.isEmpty && a.all emailChar && b.all emailChar && hasInnerDot b

/-- JavaScript `x.trim()`: defined on strings, a TypeError (`none`) on
numbers, null and undefined. -/
def jsTrim : JsValue → Option String
  | JsValue.vStr s => some (jsTrimStr s)
  | _ => none

/-- Variant A normalisation of an optional field, `x?.trim() || null`:
null and undefined become null, a string becomes its trim or null when
blank, and calling `trim` on a number throws (`none` outer layer). -/
def cleanOptA : JsValue → Option (Option String)
  | JsValue.vNull => some none
  | JsValue.undef => some none
  | JsValue.vStr s => some (if jsTrimStr s == "" then none else some (jsTrimStr s))
  | JsValue.vNum _ => none

/-- Variant B normalisation of an optional field,
`x && x.trim() ? x.trim() : null`: falsy values short-circuit to null, a
string becomes its trim or null when blank, and a nonzero number throws
when `trim` is called on it. -/
def cleanOptB : JsValue → Option (Option String)
  | JsValue.vNull => some none
  | JsValue.undef => some none
  | JsValue.vStr s => some (if jsTrimStr s == "" then none else some (jsTrimStr s))
  | JsValue.vNum n => if n == 0 then some none else none

/-! ## Data model -/

/-- A persisted order row.  `order_date` and `department` exist only in the
variant B table and stay `none` for rows written by variant A. -/
structure Order where
  id : Nat
  name : String
  student_id : String
  jersey_number : Int
  batch : Option String
  size : String
  collar_type : String
  sleeve_type : String
  email : String
  transaction_id : Option String
  notes : Option String
  final_price : Int
  status : String
  created_at : Nat
  updated_at : Nat
  order_date : Option Nat := none
  department : Option String := none
deriving DecidableEq, Repr

/-- Environment configuration read by the email layer. -/
structure Env where
  brevoApiKey : Option String
  adminEmail : Option String
deriving DecidableEq, Repr

/-- Outcome of one call of the outbound HTTP transport. -/
inductive TransportOutcome where
  | ok : TransportOutcome
  | httpFail : TransportOutcome
  | threw : TransportOutcome
deriving DecidableEq, Repr

/-- `sendEmail` (variant A) and `sendEmailViaBrevo` (variant B) never
throw: a missing API key and every transport failure are swallowed into a
`success: false` result. -/
def sendEmail (env : Env) (t : TransportOutcome) : Bool :=
  match env.brevoApiKey with
  | none => false
  | some _ =>
      match t with
      | TransportOutcome.ok => true
      | _ => false

/-- Observable steps of a handler, in execution order.  `emailAwaited`
records a send whose completion the handler awaits; `emailSpawned` records
a fire-and-forget dispatch; `respond` records the HTTP response being
sent with the given status code. -/
inductive Ev where
  | emailAwaited : String → String → Ev
  | emailSpawned : String → String → Ev
  | respond : Nat → Ev
deriving DecidableEq, Repr

/-- Whether an event is an email send (awaited or spawned). -/
def isEmailEv : Ev → Bool
  | Ev.emailAwaited _ _ => true
  | Ev.emailSpawned _ _ => true
  | Ev.respond _ => false

/-- Number of email sends in a trace. -/
def emailCount (evs : List Ev) : Nat := (evs.filter isEmailEv).length

/-- Whether a trace contains no awaited email send. -/
def noAwaited (evs : List Ev) : Bool :=
  evs.all (fun e =>
    match e with
    | Ev.emailAwaited _ _ => false
    | _ => true)

/-- The raw order submission body, one `JsValue` per field read by the
handlers. -/
structure CreateReq where
  name : JsValue
  studentId : JsValue
  jerseyNumber : JsValue
  batch : JsValue
  size : JsValue
  collarType : JsValue
  sleeveType : JsValue
  email : JsValue
  transactionId : JsValue
  notes : JsValue
  finalPrice : JsValue
  orderDate : JsValue := JsValue.undef
  department : JsValue := JsValue.undef
deriving DecidableEq, Repr

/-! ## Fixed response strings -/

def msgMissingA : String := "Missing required fields"
def msgBadEmailA : String := "Invalid email format"
def msgBadJerseyA : String := "Jersey number must be 0-500"
def msgPlaced : String := "Order placed successfully"
def msgMissingB : String := "Missing required fields"
def msgBadJerseyB : String := "Jersey number must be between 1 and 99"
def msgBadEmailB : String := "Please provide a valid email address"
def msgConflictGeneric : String := "Jersey number is already taken"
def msgInvalidStatus : String := "Invalid status. Only pending/done allowed."
def msgNotFound : String := "Order not found"
def msgStatusUpdated : String := "Order status updated successfully"
def msgDeleted : String := "Order deleted successfully"
def subjConfirm : String := "ICE Jersey Order Confirmation - Order Received"
def subjPaymentConfirmed : String := "Payment Confirmed - ICE Jersey Order"

/-- Subject of the admin alert email,
`New Jersey Order - name (#jerseyNumber)`. -/
def subjAdmin (nm jn : String) : String :=
  "New Jersey Order - " ++ nm ++ " (#" ++ jn ++ ")"

/-- Left pad with zeroes, `String.padStart(k, '0')`. -/
def padStartZero (k : Nat) (s : String) : String :=
  if k ≤ s.length then s else String.mk (List.replicate (k - s.length) '0') ++ s

/-! ## Variant A: POST /api/orders (lines 306-550) -/

/-- Responses of the variant A create handler. -/
inductive CreateResA where
  | badRequest : String → CreateResA
  | created : String → String → CreateResA
  | serverError : CreateResA
deriving DecidableEq, Repr

/-- The falsy required-field test of lines 315-316:
`!name || !studentId || !jerseyNumber || !size || !collarType ||
!sleeveType || !email || !finalPrice`. -/
def requiredMissingA (r : CreateReq) : Bool :=
  !(truthy r.name && truthy r.studentId && truthy r.jerseyNumber && truthy r.size &&
    truthy r.collarType && truthy r.sleeveType && truthy r.email && truthy r.finalPrice)

/-- The variant A `POST /api/orders` handler.  `nextId` is the value the
serial primary key would assign, `now` the store timestamp.  Returns the
response, the resulting table, and the event trace.  The duplicate
pre-check of the original code is commented out in the source and the
variant A table has no unique constraint on `jersey_number`, so the insert
is unconditional.  Both emails are awaited before the 201 response. -/
def createOrderA (env : Env) (t : TransportOutcome) (db : List Order)
    (nextId : Nat) (now : Nat) (r : CreateReq) :
    CreateResA × List Order × List Ev :=
  if requiredMissingA r then
    (CreateResA.badRequest msgMissingA, db, [Ev.respond 400])
  else if !(emailValid (jsToString r.email)) then
    (CreateResA.badRequest msgBadEmailA, db, [Ev.respond 400])
  else
    match parseIntJS r.jerseyNumber with
    | none => (CreateResA.badRequest msgBadJerseyA, db, [Ev.respond 400])
    | some jerseyNum =>
      if jerseyNum < 0 ∨ 500 < jerseyNum then
        (CreateResA.badRequest msgBadJerseyA, db, [Ev.respond 400])
      else
        match jsTrim r.name, jsTrim r.studentId, jsTrim r.email,
              cleanOptA r.batch, cleanOptA r.transactionId, cleanOptA r.notes,
              pgInt r.finalPrice with
        | some nm, some sid, some em, some b, some tx, some nt, some fp =>
          let o : Order :=
            { id := nextId, name := nm, student_id := sid, jersey_number := jerseyNum,
              batch := b, size := jsToString r.size, collar_type := jsToString r.collarType,
              sleeve_type := jsToString r.sleeveType, email := em,
              transaction_id := tx, notes := nt, final_price := fp,
              status := "pending", created_at := now, updated_at := now }
          let db2 := db ++ [o]
          let _sent := sendEmail env t
          let adminEvs :=
            match env.adminEmail with
            | some a =>
                let _sent2 := sendEmail env t
                [Ev.emailAwaited a (subjAdmin o.name (toString o.jersey_number))]
            | none => []
          (CreateResA.created ("ICE-" ++ padStartZero 3 (toString o.id)) ("pending"),
           db2,
           Ev.emailAwaited (jsToString r.email) subjConfirm :: adminEvs ++ [Ev.respond 201])
        | _, _, _, _, _, _, _ => (CreateResA.serverError, db, [Ev.respond 500])

/-! ## Variant A: PATCH /api/admin/orders/:id/status (lines 667-740) -/

/-- Responses of the status-update handler. -/
inductive UpdateRes where
  | badRequest : String → UpdateRes
  | notFound : String → UpdateRes
  | ok : String → String → UpdateRes
deriving DecidableEq, Repr

/-- The variant A `PATCH /api/admin/orders/:id/status` handler.  The
response carries only the fixed message and the new status.  The UPDATE is
unconditional once the order exists; the confirmation email fires only
when the new status is done and the stored status was not. -/
def updateStatusA (env : Env) (t : TransportOutcome) (db : List Order)
    (id : Nat) (now : Nat) (status : JsValue) :
    UpdateRes × List Order × List Ev :=
  if !(status == JsValue.vStr ("pending") || status == JsValue.vStr ("done")) then
    (UpdateRes.badRequest msgInvalidStatus, db, [Ev.respond 400])
  else
    match db.find? (fun o => o.id == id) with
    | none => (UpdateRes.notFound msgNotFound, db, [Ev.respond 404])
    | some order =>
      let s := jsToString status
      let db2 := db.map (fun o =>
        if o.id == id then { o with status := s, updated_at := now } else o)
      let evs :=
        if s == "done" && !(order.status == "done") then
          let _sent := sendEmail env t
          [Ev.emailAwaited order.email subjPaymentConfirmed]
        else []
      (UpdateRes.ok msgStatusUpdated s, db2, evs ++ [Ev.respond 200])

/-! ## Variant A: DELETE and GET by id (lines 643-664, 743-764) -/

/-- Responses of the delete handler. -/
inductive DeleteRes where
  | notFound : String → DeleteRes
  | ok : String → DeleteRes
deriving DecidableEq, Repr

/-- The `DELETE /api/admin/orders/:id` handler:
`DELETE FROM orders WHERE id = $1 RETURNING *`; the returned rows only
feed the emptiness test, the success body is a fixed message. -/
def deleteOrderA (db : List Order) (id : Nat) : DeleteRes × List Order :=
  match db.find? (fun o => o.id == id) with
  | none => (DeleteRes.notFound msgNotFound, db)
  | some _ => (DeleteRes.ok msgDeleted, db.filter (fun o => !(o.id == id)))

/-- Responses of the get-by-id handler. -/
inductive GetRes where
  | notFound : String → GetRes
  | ok : Order → GetRes
deriving DecidableEq, Repr

/-- The `GET /api/admin/orders/:id` handler. -/
def getOrderA (db : List Order) (id : Nat) : GetRes :=
  match db.find? (fun o => o.id == id) with
  | none => GetRes.notFound msgNotFound
  | some o => GetRes.ok o

/-! ## Variant B: POST /api/orders (lines 1269-1383) -/

/-- The required field names of line 1278. -/
def requiredFields : List String :=
  [ "name", "studentId", "jerseyNumber", "size", "collarType", "sleeveType",
    "email", "finalPrice" ]

/-- Field lookup `req.body[field]` for the required field names. -/
def getField (r : CreateReq) : String → JsValue
  | "name" => r.name
  | "studentId" => r.studentId
  | "jerseyNumber" => r.jerseyNumber
  | "size" => r.size
  | "collarType" => r.collarType
  | "sleeveType" => r.sleeveType
  | "email" => r.email
  | "finalPrice" => r.finalPrice
  | _ => JsValue.undef

/-- The per-field test of line 1279:
`!req.body[field] || req.body[field].toString().trim() === ''`. -/
def fieldMissingB (r : CreateReq) (f : String) : Bool :=
  !(truthy (getField r f)) || jsTrimStr (jsToString (getField r f)) == ""

/-- `requiredFields.filter(...)` of line 1279. -/
def missingFieldsB (r : CreateReq) : List String :=
  requiredFields.filter (fun f => fieldMissingB r f)

/-- Responses of the variant B create handler.  `created` carries the
formatted order id and the `details` object fields of lines 1359-1365. -/
inductive CreateResB where
  | missingFields : List String → CreateResB
  | badRequest : String → CreateResB
  | conflict : String → CreateResB
  | created : String → String → JsValue → Option String → String → JsValue → CreateResB
  | serverError : CreateResB
deriving DecidableEq, Repr

/-- `department || 'ICE'` of line 1334. -/
def departmentOf (v : JsValue) : String :=
  if truthy v then jsToString v else "ICE"

/-- Admin recipient of `sendAdminNotification`:
`process.env.ADMIN_EMAIL || 'sheikhnoorabdullah02@gmail.com'`. -/
def adminEmailB (env : Env) : String :=
  env.adminEmail.getD ("sheikhnoorabdullah02@gmail.com")

/-- The variant B `POST /api/orders` handler.  `constraintDup` models a
concurrent insert of the same jersey number committed between the
pre-check and the INSERT: the unique index then rejects the INSERT with
error code 23505, which the catch block maps to a 409 with a generic
message.  The two notification emails are dispatched through
`Promise.allSettled` without being awaited before the 201 response. -/
def createOrderB (env : Env) (t : TransportOutcome) (constraintDup : Bool)
    (db : List Order) (nextId : Nat) (now : Nat) (r : CreateReq) :
    CreateResB × List Order × List Ev :=
  if !(missingFieldsB r).isEmpty then
    (CreateResB.missingFields (missingFieldsB r), db, [Ev.respond 400])
  else
    match parseIntJS r.jerseyNumber with
    | none => (CreateResB.badRequest msgBadJerseyB, db, [Ev.respond 400])
    | some jerseyNum =>
      if jerseyNum < 1 ∨ 99 < jerseyNum then
        (CreateResB.badRequest msgBadJerseyB, db, [Ev.respond 400])
      else
        match jsTrim r.email with
        | none => (CreateResB.serverError, db, [Ev.respond 500])
        | some em =>
          if !(emailValid em) then
            (CreateResB.badRequest msgBadEmailB, db, [Ev.respond 400])
          else
            match pgInt r.jerseyNumber with
            | none => (CreateResB.serverError, db, [Ev.respond 500])
            | some jq =>
              match db.find? (fun o => o.jersey_number == jq) with
              | some holder =>
                  (CreateResB.conflict ("Jersey number " ++ jsToString r.jerseyNumber ++
                     " is already taken by " ++ holder.name), db, [Ev.respond 409])
              | none =>
                match jsTrim r.name, jsTrim r.studentId, cleanOptB r.batch,
                      cleanOptB r.transactionId, cleanOptB r.notes,
                      pgInt r.finalPrice with
                | some nm, some sid, some b, some tx, some nt, some fp =>
                  if constraintDup then
                    (CreateResB.conflict msgConflictGeneric, db, [Ev.respond 409])
                  else
                    let o : Order :=
                      { id := nextId, name := nm, student_id := sid, jersey_number := jq,
                        batch := b, size := jsToString r.size,
                        collar_type := jsToString r.collarType,
                        sleeve_type := jsToString r.sleeveType, email := em,
                        transaction_id := tx, notes := nt, final_price := fp,
                        status := "pending", created_at := now, updated_at := now,
                        order_date := some now,
                        department := some (departmentOf r.department) }
                    let _sent := sendEmail env t
                    let _sent2 := sendEmail env t
                    (CreateResB.created ("ICE-" ++ padStartZero 6 (toString nextId))
                       nm r.jerseyNumber b em r.finalPrice,
                     db ++ [o],
                     [ Ev.emailSpawned (jsToString r.email) subjConfirm,
                       Ev.emailSpawned (adminEmailB env)
                         (subjAdmin (jsToString r.name) (jsToString r.jerseyNumber)),
                       Ev.respond 201 ])
                | _, _, _, _, _, _ => (CreateResB.serverError, db, [Ev.respond 500])

/-- Whether a variant B response is the 201 success. -/
def isCreatedB : CreateResB → Bool
  | CreateResB.created _ _ _ _ _ _ => true
  | _ => false

/-! ## Concrete fixtures used by counterexamples and witnesses -/

/-- Environment with no email configuration. -/
def envNone : Env := { brevoApiKey := none, adminEmail := none }

/-- A fully valid submission: Bob requests jersey number 7. -/
def validReq : CreateReq :=
  { name := JsValue.vStr ("Bob"), studentId := JsValue.vStr ("S1"),
    jerseyNumber := JsValue.vStr ("7"), batch := JsValue.undef,
    size := JsValue.vStr ("M"), collarType := JsValue.vStr ("Round"),
    sleeveType := JsValue.vStr ("Short"), email := JsValue.vStr ("bob@x.co"),
    transactionId := JsValue.undef, notes := JsValue.undef,
    finalPrice := JsValue.vNum 450 }

/-- An admitted order holding jersey number 7, status pending. -/
def aliceOrder : Order :=
  { id := 1, name := "Alice", student_id := "S0", jersey_number := 7,
    batch := none, size := "M", collar_type := "Round", sleeve_type := "Short",
    email := "alice@x.co", transaction_id := none, notes := none,
    final_price := 450, status := "pending", created_at := 0, updated_at := 0 }

/-- The same order after completion, status done. -/
def doneAlice : Order := { aliceOrder with status := "done" }

/-- A different order that happens to use the same primary key. -/
def bobSameId : Order :=
  { aliceOrder with name := "Bob", jersey_number := 8, email := "bob@x.co" }

/-- `validReq` with the jersey number given as the JSON number 0. -/
def reqJersey0 : CreateReq := { validReq with jerseyNumber := JsValue.vNum 0 }

/-- `validReq` with the jersey number given as the string 0. -/
def reqJerseyStr0 : CreateReq := { validReq with jerseyNumber := JsValue.vStr ("0") }

/-- `validReq` with the jersey number 501, one above the variant A bound. -/
def reqJersey501 : CreateReq := { validReq with jerseyNumber := JsValue.vStr ("501") }

/-- `validReq` with the name absent. -/
def reqMissingName : CreateReq := { validReq with name := JsValue.vNull }

/-- `validReq` with the email absent. -/
def reqMissingEmail : CreateReq := { validReq with email := JsValue.vNull }

/-! ## Helper lemmas -/

/-- `find?` commutes with a map that preserves the predicate. -/
theorem find?_map_of_pred (p : Order → Bool) (f : Order → Order)
    (hf : ∀ x, p (f x) = p x) :
    ∀ db : List Order, (db.map f).find? p = (db.find? p).map f := by
  intro db
  induction db with
  | nil => rfl
  | cons a l ih =>
      by_cases h : p a = true
      · rw [List.map_cons, List.find?_cons_of_pos, List.find?_cons_of_pos]
        · rfl
        · exact h
        · rw [hf]; exact h
      · rw [List.map_cons, List.find?_cons_of_neg, List.find?_cons_of_neg]
        · exact ih
        · simpa using h
        · rw [hf]; simpa using h

/-- Characterisation of the status-update handler on a valid status and an
existing order: the response carries only the fixed message and the new
status, the table row is rewritten unconditionally, and the email fires
exactly on the transition to done. -/
theorem updateStatusA_spec (env : Env) (t : TransportOutcome) (db : List Order)
    (id : Nat) (now : Nat) (s : String) (o : Order)
    (hs : s = "pending" ∨ s = "done")
    (ho : db.find? (fun x => x.id == id) = some o) :
    updateStatusA env t db id now (JsValue.vStr s) =
      (UpdateRes.ok msgStatusUpdated s,
       db.map (fun x => if x.id == id then { x with status := s, updated_at := now } else x),
       (if s == "done" && !(o.status == "done")
        then [Ev.emailAwaited o.email subjPaymentConfirmed] else []) ++ [Ev.respond 200]) := by
  have hguard :
      (!(JsValue.vStr s == JsValue.vStr ("pending") || JsValue.vStr s == JsValue.vStr ("done")))
        = false := by
    rcases hs with h | h <;> subst h <;> decide
  simp only [updateStatusA, hguard, Bool.false_eq_true, if_false, ho, jsToString]

/-! ## Claim C1 -/

/-- Claim C1, counterexample: in the first `POST /api/orders` handler
(lines 306-550) the duplicate pre-check is commented out and the table has
no unique constraint, so a submission reusing the admitted jersey number 7
succeeds with 201 and a second record with jersey number 7 is persisted,
instead of failing with a 409 Conflict and persisting nothing. -/
theorem c1_counterexample :
    (createOrderA envNone TransportOutcome.ok [aliceOrder] 2 1 validReq).1 =
      CreateResA.created ("ICE-002") ("pending") ∧
    (((createOrderA envNone TransportOutcome.ok [aliceOrder] 2 1 validReq).2.1).filter
        (fun o => o.jersey_number == 7)).length = 2 := by
  constructor
  · rfl
  · rfl

/-- Claim C1 as amended: in the second `POST /api/orders` handler
(lines 1269-1383), a submission reusing an admitted jersey number is
rejected by the pre-insert check with a 409 naming the number and the
holder, and no record is persisted; a unique-constraint violation raised
at insert time (error code 23505, modelled by `constraintDup`) is likewise
translated to a 409 Conflict with no record persisted, though its message
is the generic one and does not name the number.  The first handler does
not reject duplicates at all. -/
theorem c1_amended_theorem (env : Env) (t : TransportOutcome) (cd : Bool)
    (db : List Order) (nextId now : Nat) (r : CreateReq)
    (j jq : Int) (es nm sid : String) (b tx nt : Option String) (fp : Int)
    (holder : Order)
    (hm : missingFieldsB r = [])
    (hj : parseIntJS r.jerseyNumber = some j)
    (hrange : ¬(j < 1 ∨ 99 < j))
    (he : r.email = JsValue.vStr es)
    (hev : emailValid (jsTrimStr es) = true)
    (hq : pgInt r.jerseyNumber = some jq) :
    (db.find? (fun o => o.jersey_number == jq) = some holder →
       createOrderB env t cd db nextId now r =
         (CreateResB.conflict ("Jersey number " ++ jsToString r.jerseyNumber ++
            " is already taken by " ++ holder.name), db, [Ev.respond 409])) ∧
    (db.find? (fun o => o.jersey_number == jq) = none →
     jsTrim r.name = some nm → jsTrim r.studentId = some sid →
     cleanOptB r.batch = some b → cleanOptB r.transactionId = some tx →
     cleanOptB r.notes = some nt → pgInt r.finalPrice = some fp →
     cd = true →
       createOrderB env t cd db nextId now r =
         (CreateResB.conflict msgConflictGeneric, db, [Ev.respond 409])) := by
  have hempty : (missingFieldsB r).isEmpty = true := by rw [hm]; rfl
  have hem : jsTrim r.email = some (jsTrimStr es) := by rw [he]; rfl
  constructor
  · intro hfind
    simp only [createOrderB, hempty, Bool.not_true, Bool.false_eq_true, if_false,
      hj, hrange, hem, hev, hq, hfind]
  · intro hfind h1 h2 h3 h4 h5 h6 hcd
    subst hcd
    simp only [createOrderB, hempty, Bool.not_true, Bool.false_eq_true, if_false,
      hj, hrange, hem, hev, hq, hfind, h1, h2, h3, h4, h5, h6, if_true]

/-- Claim C1 witness: with Alice holding jersey 7 admitted, the amended
theorem applied at Bob's submission of jersey 7 yields the 409 conflict
naming the number and the holder, with the table unchanged. -/
theorem c1_witness :
    createOrderB envNone TransportOutcome.ok false [aliceOrder] 2 1 validReq =
      (CreateResB.conflict ("Jersey number 7 is already taken by Alice"),
       [aliceOrder], [Ev.respond 409]) :=
  (c1_amended_theorem envNone TransportOutcome.ok false [aliceOrder] 2 1 validReq
    7 7 ("bob@x.co") ("Bob") ("S1") none none none 450 aliceOrder
    (by decide) rfl (by decide) rfl (by decide) rfl).1 rfl

/-! ## Claim C2 -/

/-- Claim C2: the status-update handler sends exactly one notification
email when the stored status is not done and the new status is done, sends
none when the stored status is already done, and a second identical call
after a first one sends no further email (the notification fires exactly
on the pending-to-done edge). -/
theorem c2_theorem (env : Env) (t : TransportOutcome) (db : List Order)
    (id : Nat) (now now2 : Nat) (o : Order)
    (ho : db.find? (fun x => x.id == id) = some o) :
    (o.status ≠ "done" →
       emailCount (updateStatusA env t db id now (JsValue.vStr ("done"))).2.2 = 1) ∧
    (o.status = "done" →
       emailCount (updateStatusA env t db id now (JsValue.vStr ("done"))).2.2 = 0) ∧
    emailCount (updateStatusA env t
      (updateStatusA env t db id now (JsValue.vStr ("done"))).2.1
      id now2 (JsValue.vStr ("done"))).2.2 = 0 := by
  have hspec := updateStatusA_spec env t db id now ("done") o (Or.inr rfl) ho
  refine ⟨?_, ?_, ?_⟩
  · intro h
    have hb : (o.status == "done") = false := by
      simpa using h
    rw [hspec]
    simp [emailCount, isEmailEv, hb]
  · intro h
    have hb : (o.status == "done") = true := by simpa using h
    rw [hspec]
    simp [emailCount, isEmailEv, hb]
  · have hid : (o.id == id) = true := @List.find?_some _ (fun x => x.id == id) o db ho
    have hfind2 :
        ((db.map (fun x =>
            if x.id == id then { x with status := "done", updated_at := now } else x)).find?
          (fun x => x.id == id)) =
        some { o with status := "done", updated_at := now } := by
      rw [find?_map_of_pred (fun x => x.id == id)
        (fun x => if x.id == id then { x with status := "done", updated_at := now } else x)
        (fun x => by by_cases hx : (x.id == id) = true <;> simp [hx]) db, ho]
      simp [Option.map, hid]
    have hspec2 := updateStatusA_spec env t
      (db.map (fun x =>
        if x.id == id then { x with status := "done", updated_at := now } else x))
      id now2 ("done")
      ({ o with status := "done", updated_at := now }) (Or.inr rfl) hfind2
    rw [hspec]
    simp only []
    rw [hspec2]
    simp [emailCount, isEmailEv]

/-- Claim C2 witness: on a concrete pending order, setting the status to
done sends exactly one email. -/
theorem c2_witness :
    emailCount (updateStatusA envNone TransportOutcome.ok [aliceOrder] 1 5
      (JsValue.vStr ("done"))).2.2 = 1 :=
  (c2_theorem envNone TransportOutcome.ok [aliceOrder] 1 5 6 aliceOrder rfl).1 (by decide)

/-! ## Claim C3 -/

/-- Claim C3, counterexample: in the first `POST /api/orders` handler a
successful submission produces the 201 response only after the awaited
confirmation email send (`await sendEmail(...)` at lines 453-458 precedes
`res.status(201)` at line 536): the trace shows an awaited email event
before the respond event, so the response does wait on notification
dispatch. -/
theorem c3_counterexample :
    (createOrderA envNone TransportOutcome.ok [] 1 0 validReq).1 =
      CreateResA.created ("ICE-001") ("pending") ∧
    (createOrderA envNone TransportOutcome.ok [] 1 0 validReq).2.2 =
      [ Ev.emailAwaited ("bob@x.co") subjConfirm, Ev.respond 201 ] := by
  constructor
  · rfl
  · rfl

/-- Claim C3 as amended: in the second `POST /api/orders` handler the
trace never contains an awaited email send, and on success the two
notification emails are handed off fire-and-forget
(`Promise.allSettled`, not awaited) before the 201 respond event.  In the
first handler the sends are awaited before the 201 response. -/
theorem c3_amended_theorem (env : Env) (t : TransportOutcome) (cd : Bool)
    (db : List Order) (nextId now : Nat) (r : CreateReq) :
    noAwaited (createOrderB env t cd db nextId now r).2.2 = true ∧
    (isCreatedB (createOrderB env t cd db nextId now r).1 = true →
       (createOrderB env t cd db nextId now r).2.2 =
         [ Ev.emailSpawned (jsToString r.email) subjConfirm,
           Ev.emailSpawned (adminEmailB env)
             (subjAdmin (jsToString r.name) (jsToString r.jerseyNumber)),
           Ev.respond 201 ]) := by
  unfold createOrderB
  repeat' split
  all_goals simp [noAwaited, isCreatedB]

/-- Claim C3 witness: a concrete successful submission through the second
handler dispatches both emails without awaiting them, then responds. -/
theorem c3_witness :
    (createOrderB envNone TransportOutcome.ok false [] 1 0 validReq).2.2 =
      [ Ev.emailSpawned ("bob@x.co") subjConfirm,
        Ev.emailSpawned ("sheikhnoorabdullah02@gmail.com")
          (subjAdmin ("Bob") ("7")),
        Ev.respond 201 ] :=
  (c3_amended_theorem envNone TransportOutcome.ok false [] 1 0 validReq).2 (by decide)

/-! ## Claim C4 -/

/-- Claim C4, counterexample: the first handler answers every
required-field failure with the constant message of line 317, naming no
field at all: a submission missing only the name and one missing only the
email receive identical responses, so the response cannot name every
offending field. -/
theorem c4_counterexample :
    (createOrderA envNone TransportOutcome.ok [] 1 0 reqMissingName).1 =
      (createOrderA envNone TransportOutcome.ok [] 1 0 reqMissingEmail).1 ∧
    truthy reqMissingName.name = false ∧ truthy reqMissingName.email = true ∧
    truthy reqMissingEmail.name = true ∧ truthy reqMissingEmail.email = false := by
  refine ⟨rfl, rfl, rfl, rfl, rfl⟩

/-- Claim C4 as amended: the second handler returns 400 with a
`missingFields` array naming exactly the required fields that are missing
(every one of them, not just the first), and persists nothing; the first
handler returns 400 with a fixed message naming no field, and
format violations (jersey range, email syntax) are in both handlers
reported one at a time rather than all together. -/
theorem c4_amended_theorem (env : Env) (t : TransportOutcome) (cd : Bool)
    (db : List Order) (nextId now : Nat) (r : CreateReq)
    (h : missingFieldsB r ≠ []) :
    (createOrderB env t cd db nextId now r).1 =
      CreateResB.missingFields (missingFieldsB r) ∧
    (createOrderB env t cd db nextId now r).2.1 = db ∧
    ∀ f, f ∈ missingFieldsB r ↔ f ∈ requiredFields ∧ fieldMissingB r f = true := by
  have hempty : (missingFieldsB r).isEmpty = false := by
    cases hm : missingFieldsB r with
    | nil => exact absurd hm h
    | cons a l => rfl
  refine ⟨?_, ?_, ?_⟩
  · simp only [createOrderB, hempty, Bool.not_false, if_true]
  · simp only [createOrderB, hempty, Bool.not_false, if_true]
  · intro f
    simp [missingFieldsB, List.mem_filter]

/-- Claim C4 witness: a submission missing only the name receives the
missing-fields response naming exactly the name field. -/
theorem c4_witness :
    (createOrderB envNone TransportOutcome.ok false [] 1 0 reqMissingName).1 =
      CreateResB.missingFields (missingFieldsB reqMissingName) :=
  (c4_amended_theorem envNone TransportOutcome.ok false [] 1 0 reqMissingName
    (by decide)).1

/-! ## Claim C5 -/

/-- Claim C5, counterexample: the status-update response of lines 727-731
contains only the fixed message and the new status.  Updating two stores
that differ exactly in the previous status of the target order (pending
versus done) yields identical responses, so the caller cannot recover the
previous status and cannot distinguish a real transition from a no-op. -/
theorem c5_counterexample :
    (updateStatusA envNone TransportOutcome.ok [aliceOrder] 1 5 (JsValue.vStr ("done"))).1 =
      (updateStatusA envNone TransportOutcome.ok [doneAlice] 1 5 (JsValue.vStr ("done"))).1 ∧
    aliceOrder.status ≠ doneAlice.status := by
  refine ⟨rfl, by decide⟩

/-- Claim C5 as amended: for every existing order id and every newStatus
in pending or done, the status-update operation returns only the fixed
success message and the new status; the previous status of the order is
not part of the response. -/
theorem c5_amended_theorem (env : Env) (t : TransportOutcome) (db : List Order)
    (id : Nat) (now : Nat) (s : String) (o : Order)
    (hs : s = "pending" ∨ s = "done")
    (ho : db.find? (fun x => x.id == id) = some o) :
    (updateStatusA env t db id now (JsValue.vStr s)).1 = UpdateRes.ok msgStatusUpdated s := by
  rw [updateStatusA_spec env t db id now s o hs ho]

/-- Claim C5 witness: the amended response shape on a concrete order. -/
theorem c5_witness :
    (updateStatusA envNone TransportOutcome.ok [aliceOrder] 1 5
      (JsValue.vStr ("done"))).1 = UpdateRes.ok msgStatusUpdated ("done") :=
  c5_amended_theorem envNone TransportOutcome.ok [aliceOrder] 1 5 ("done") aliceOrder
    (Or.inr rfl) rfl

/-! ## Claim C6 -/

/-- Claim C6, counterexample: in the first handler the accepted range is
0-500, so 0 is the configured lower bound and is inside the range; yet a
submission carrying the JSON number 0 as jersey number is rejected 400 as
a missing required field by the falsy presence check, not accepted. -/
theorem c6_counterexample :
    (createOrderA envNone TransportOutcome.ok [] 1 0 reqJersey0).1 =
      CreateResA.badRequest msgMissingA ∧
    ¬((0 : Int) < 0 ∨ 500 < (0 : Int)) := by
  refine ⟨rfl, by decide⟩

/-- Claim C6 as amended: each handler checks its own hardcoded inclusive
range rather than one shared documented configuration value - 0-500 in the
first handler and 1-99 in the second.  For a submission that passes the
presence and (for the first handler) email checks and whose jersey number
parses to j, the range rejection fires exactly when j lies outside the
respective range; in the first handler the lower bound 0 supplied as a
JSON number never reaches the range check because the falsy presence
check rejects it first. -/
theorem c6_amended_theorem (env : Env) (t : TransportOutcome) (cd : Bool)
    (db : List Order) (nextId now : Nat) (r : CreateReq) (j : Int)
    (hj : parseIntJS r.jerseyNumber = some j)
    (hpA : requiredMissingA r = false)
    (heA : emailValid (jsToString r.email) = true)
    (hmB : missingFieldsB r = []) :
    ((createOrderA env t db nextId now r).1 = CreateResA.badRequest msgBadJerseyA
       ↔ (j < 0 ∨ 500 < j)) ∧
    ((createOrderB env t cd db nextId now r).1 = CreateResB.badRequest msgBadJerseyB
       ↔ (j < 1 ∨ 99 < j)) := by
  have hempty : (missingFieldsB r).isEmpty = true := by rw [hmB]; rfl
  constructor
  · by_cases hr : j < 0 ∨ 500 < j
    · have hEq : (createOrderA env t db nextId now r).1 = CreateResA.badRequest msgBadJerseyA := by
        simp only [createOrderA, hpA, Bool.false_eq_true, if_false, heA,
          Bool.not_true, hj]
        rw [if_pos hr]
      simp [hEq, hr]
    · have hNe :
          (createOrderA env t db nextId now r).1 ≠ CreateResA.badRequest msgBadJerseyA := by
        simp only [createOrderA, hpA, Bool.false_eq_true, if_false, heA,
          Bool.not_true, hj]
        rw [if_neg hr]
        repeat' split
        all_goals simp
      simp [hNe, hr]
  · by_cases hr : j < 1 ∨ 99 < j
    · have hEq : (createOrderB env t cd db nextId now r).1 = CreateResB.badRequest msgBadJerseyB := by
        simp only [createOrderB, hempty, Bool.not_true, Bool.false_eq_true, if_false, hj]
        rw [if_pos hr]
      simp [hEq, hr]
    · have hNe :
          (createOrderB env t cd db nextId now r).1 ≠ CreateResB.badRequest msgBadJerseyB := by
        simp only [createOrderB, hempty, Bool.not_true, Bool.false_eq_true, if_false, hj]
        rw [if_neg hr]
        repeat' split
        all_goals simp [msgBadEmailB, msgBadJerseyB]
      simp [hNe, hr]

/-- Claim C6 witness: jersey number 501, one above the first handler bound
of 500, is rejected with the range message. -/
theorem c6_witness :
    (createOrderA envNone TransportOutcome.ok [] 1 0 reqJersey501).1 =
      CreateResA.badRequest msgBadJerseyA :=
  (c6_amended_theorem envNone TransportOutcome.ok false [] 1 0 reqJersey501 501
    rfl (by decide) (by decide) (by decide)).1.mpr (Or.inr (by decide))

/-! ## Claim C7 -/

/-- Claim C7: email failure never propagates.  Both create handlers and
the status-update handler return exactly the same response, store state
and trace whatever the transport outcome and whatever the Brevo API key
configuration; and the send capability itself swallows a transport error,
a thrown fetch and a missing API key into a plain false result rather
than an exception. -/
theorem c7_theorem (k1 k2 a : Option String) (t1 t2 : TransportOutcome) (cd : Bool)
    (db : List Order) (nextId now id : Nat) (r : CreateReq) (s : JsValue) :
    createOrderA ⟨k1, a⟩ t1 db nextId now r = createOrderA ⟨k2, a⟩ t2 db nextId now r ∧
    updateStatusA ⟨k1, a⟩ t1 db id now s = updateStatusA ⟨k2, a⟩ t2 db id now s ∧
    createOrderB ⟨k1, a⟩ t1 cd db nextId now r = createOrderB ⟨k2, a⟩ t2 cd db nextId now r ∧
    sendEmail ⟨k1, a⟩ TransportOutcome.httpFail = false ∧
    sendEmail ⟨k1, a⟩ TransportOutcome.threw = false ∧
    sendEmail ⟨none, a⟩ t1 = false := by
  refine ⟨rfl, rfl, rfl, ?_, ?_, rfl⟩
  · cases k1 <;> rfl
  · cases k1 <;> rfl

/-! ## Claim C8 -/

/-- Claim C8, counterexample: the delete response of lines 753-756 is a
fixed success message and does not return the deleted order snapshot:
deleting two different orders produces identical responses, so the
response cannot serve as the deleted snapshot. -/
theorem c8_counterexample :
    (deleteOrderA [aliceOrder] 1).1 = (deleteOrderA [bobSameId] 1).1 ∧
    aliceOrder ≠ bobSameId := by
  refine ⟨rfl, by decide⟩

/-- Claim C8 as amended: deleting an unknown id yields NotFound with the
store unchanged; deleting an existing id yields a 200 success message
(without the deleted snapshot), removes every row with that id, and a
subsequent getById on that id yields NotFound. -/
theorem c8_amended_theorem (db : List Order) (id : Nat) :
    (db.find? (fun x => x.id == id) = none →
       deleteOrderA db id = (DeleteRes.notFound msgNotFound, db)) ∧
    (∀ o, db.find? (fun x => x.id == id) = some o →
       (deleteOrderA db id).1 = DeleteRes.ok msgDeleted ∧
       getOrderA (deleteOrderA db id).2 id = GetRes.notFound msgNotFound ∧
       ∀ x ∈ (deleteOrderA db id).2, (x.id == id) = false) := by
  constructor
  · intro h
    simp only [deleteOrderA, h]
  · intro o h
    have hdel : deleteOrderA db id =
        (DeleteRes.ok msgDeleted, db.filter (fun x => !(x.id == id))) := by
      simp only [deleteOrderA, h]
    refine ⟨by rw [hdel], ?_, ?_⟩
    · rw [hdel]
      simp only [getOrderA]
      have hnone :
          (db.filter (fun x => !(x.id == id))).find? (fun x => x.id == id) = none := by
        rw [List.find?_eq_none]
        intro x hx
        have hfx := List.of_mem_filter hx
        simp at hfx ⊢
        exact hfx
      rw [hnone]
    · rw [hdel]
      intro x hx
      have hfx := List.of_mem_filter hx
      simpa using hfx

/-- Claim C8 witness: deleting the concrete existing order succeeds with
the fixed message. -/
theorem c8_witness :
    (deleteOrderA [aliceOrder] 1).1 = DeleteRes.ok msgDeleted :=
  ((c8_amended_theorem [aliceOrder] 1).2 aliceOrder rfl).1

/-! ## Claim C9 -/

/-- Claim C9: a submission carrying the JSON number 0 for jerseyNumber or
finalPrice fails the falsy presence test of both handlers and is rejected
400 as missing, with nothing persisted, even though 0 is inside the first
handler range; the same value as the nonempty string 0 passes the
presence tests of both handlers. -/
theorem c9_theorem (env : Env) (t : TransportOutcome) (db : List Order)
    (nextId now : Nat) (r r2 : CreateReq) :
    (r.jerseyNumber = JsValue.vNum 0 ∨ r.finalPrice = JsValue.vNum 0 →
       createOrderA env t db nextId now r =
         (CreateResA.badRequest msgMissingA, db, [Ev.respond 400])) ∧
    (r.jerseyNumber = JsValue.vNum 0 →
       "jerseyNumber" ∈ missingFieldsB r ∧
       (createOrderB env t false db nextId now r).1 =
         CreateResB.missingFields (missingFieldsB r)) ∧
    (r.finalPrice = JsValue.vNum 0 → "finalPrice" ∈ missingFieldsB r) ∧
    (r2.jerseyNumber = JsValue.vStr ("0") →
       truthy r2.jerseyNumber = true ∧ fieldMissingB r2 ("jerseyNumber") = false) := by
  refine ⟨?_, ?_, ?_, ?_⟩
  · intro h
    have hm : requiredMissingA r = true := by
      rcases h with h | h <;> simp [requiredMissingA, h, truthy]
    simp only [createOrderA, hm, if_true]
  · intro h
    have hf : fieldMissingB r ("jerseyNumber") = true := by
      simp [fieldMissingB, getField, h, truthy]
    have hmem : "jerseyNumber" ∈ missingFieldsB r :=
      List.mem_filter.mpr ⟨by decide, hf⟩
    refine ⟨hmem, ?_⟩
    have hempty : (missingFieldsB r).isEmpty = false := by
      cases hm2 : missingFieldsB r with
      | nil => rw [hm2] at hmem; cases hmem
      | cons x l => rfl
    simp only [createOrderB, hempty, Bool.not_false, if_true]
  · intro h
    have hf : fieldMissingB r ("finalPrice") = true := by
      simp [fieldMissingB, getField, h, truthy]
    exact List.mem_filter.mpr ⟨by decide, hf⟩
  · intro h
    refine ⟨by rw [h]; rfl, ?_⟩
    rw [show fieldMissingB r2 ("jerseyNumber") =
          (!(truthy r2.jerseyNumber) || jsTrimStr (jsToString r2.jerseyNumber) == "") from rfl,
        h]
    decide

/-- Claim C9 witness: the concrete submission with jersey number given as
the JSON number 0 is rejected as missing by the first handler although 0
is inside its 0-500 range. -/
theorem c9_witness :
    createOrderA envNone TransportOutcome.ok [] 1 0 reqJersey0 =
      (CreateResA.badRequest msgMissingA, [], [Ev.respond 400]) :=
  (c9_theorem envNone TransportOutcome.ok [] 1 0 reqJersey0 reqJerseyStr0).1 (Or.inl rfl)

/-! ## Claim C10 -/

/-- Claim C10: for a valid new status and an existing order id, the UPDATE
runs unconditionally: every row with that id is rewritten with the new
status and updated_at set to the current time - also when the new status
equals the stored one - and every other row, and every other field of the
rewritten row, is unchanged. -/
theorem c10_theorem (env : Env) (t : TransportOutcome) (db : List Order)
    (id : Nat) (now : Nat) (s : String) (o : Order)
    (hs : s = "pending" ∨ s = "done")
    (ho : db.find? (fun x => x.id == id) = some o) :
    (updateStatusA env t db id now (JsValue.vStr s)).1 = UpdateRes.ok msgStatusUpdated s ∧
    (updateStatusA env t db id now (JsValue.vStr s)).2.1.length = db.length ∧
    (∀ x ∈ db, (x.id == id) = false →
       x ∈ (updateStatusA env t db id now (JsValue.vStr s)).2.1) ∧
    (∀ x ∈ db, (x.id == id) = true →
       { x with status := s, updated_at := now } ∈
         (updateStatusA env t db id now (JsValue.vStr s)).2.1) := by
  rw [updateStatusA_spec env t db id now s o hs ho]
  refine ⟨rfl, by simp, ?_, ?_⟩
  · intro x hx hxid
    exact List.mem_map.mpr ⟨x, hx, by simp [hxid]⟩
  · intro x hx hxid
    exact List.mem_map.mpr ⟨x, hx, by simp [hxid]⟩

/-- Claim C10 witness: a done-to-done no-op still rewrites updated_at on
the stored row. -/
theorem c10_witness :
    { doneAlice with status := "done", updated_at := 9 } ∈
      (updateStatusA envNone TransportOutcome.ok [doneAlice] 1 9
        (JsValue.vStr ("done"))).2.1 :=
  (c10_theorem envNone TransportOutcome.ok [doneAlice] 1 9 ("done") doneAlice
    (Or.inr rfl) rfl).2.2.2 doneAlice (by simp) (by decide)

end Jersee
